import Mathlib

/-!
Verification of the flash-loan arbitrage system: a shallow embedding of the
FlashLoanArbitrage Solidity contract (contracts/FlashLoanArbitrage.sol), of the
orchestrator script (scripts/weth-dai-arbitrage.js) and of the price monitor
(priceMonitor.js), together with theorems settling the specification claims.

Modelling conventions:
- uint256 arithmetic is Nat with Solidity 0.8 checked semantics: each add, sub
  and mul that the source performs outside an unchecked block is modelled by a
  checked operation returning an arithmetic-panic error on wrap; the single
  unchecked update in the source (totalProfitGenerated) is modelled mod 2^256.
- Addresses and tokens are Nat; the zero address is 0.
- Storage plus the contract's ERC20 balances form the State structure; external
  calls (Uniswap router quotes and swaps, the Aave pool premium) are an
  explicit Env parameter, so theorems quantify over every venue behaviour.
- A reverting execution is an Except.error; EVM transaction atomicity is the
  applyTx wrapper, which keeps the pre-state whenever the entry point errors.
-/

namespace FL

def MAX_BPS : Nat := 10000

def MIN_EXECUTION_DELAY : Nat := 2

/-- 2^256: the modulus of EVM words. -/
def U256 : Nat := 2 ^ 256

def ONE_E18 : Nat := 10 ^ 18

/-- Revert reasons that the source carries as string literals. -/
inductive Reason where
  | amountZero
  | exceedsMaximum
  | intermediateNotSet
  | invalidBps
  | invalidDeviation
  | invalidSlippage
  | invalidToken
  | tooSoon
  | notOwner
  | whenPaused
  | transferFailed
  | flashLoanFailed
  | rateNotSet
  | noTokens
deriving Repr, DecidableEq

/-- The contract's custom errors plus generic revert causes. -/
inductive Err where
  | invalidAmount (amount : Nat) (why : Reason)
  | invalidAddress (addr : Nat) (why : Reason)
  | invalidConfiguration (why : Reason)
  | unauthorizedCaller (caller expected : Nat)
  | insufficientProfit (actual expected : Nat)
  | excessiveSlippage (expected actual : Nat)
  | priceDeviation (expected actual : Nat)
  | arithmeticPanic
  | reverted (why : Reason)
deriving Repr, DecidableEq

/-- Checked uint256 addition (Solidity 0.8 default arithmetic). -/
def cadd (a b : Nat) : Except Err Nat :=
  if a + b < U256 then .ok (a + b) else .error .arithmeticPanic

/-- Checked uint256 subtraction. -/
def csub (a b : Nat) : Except Err Nat :=
  if b ≤ a then .ok (a - b) else .error .arithmeticPanic

/-- Checked uint256 multiplication. -/
def cmul (a b : Nat) : Except Err Nat :=
  if a * b < U256 then .ok (a * b) else .error .arithmeticPanic

/-- Storage of the FlashLoanArbitrage contract together with the contract's
own ERC20 token balances (balances maps a token address to the amount the
contract holds).  Immutable deployment parameters that matter to the claims
(owner) are carried here as well. -/
structure State where
  intermediateToken : Nat
  maxPriceDeviation : Nat
  maxSlippage : Nat
  minProfitBps : Nat
  maxFlashLoanAmount : Nat
  lastExecutionTime : Nat
  totalProfitGenerated : Nat
  totalGasUsed : Nat
  successfulTrades : Nat
  failedTrades : Nat
  lastKnownPrice : Nat → Nat
  balances : Nat → Nat
  paused : Bool
  owner : Nat

/-- The Uniswap V2 router as seen by the contract: getAmountsOut for a
two-token path, and swapExactTokensForTokens, which is given the amountOutMin
the contract passes and answers with the amount actually delivered (or
reverts).  Quantifying over Venue covers honest and misbehaving venues. -/
structure Venue where
  quote : Nat → Nat → Nat → Except Err Nat
  swap : Nat → Nat → Nat → Nat → Except Err Nat

/-- Immutable collaborators: the contract's own address, the Aave pool, WETH,
the router, the pool's premium schedule, and the gas measured by
executeOperation's gas accounting. -/
structure Env where
  self : Nat
  pool : Nat
  weth : Nat
  venue : Venue
  premium : Nat → Nat
  gasUsed : Nat

/-- State after deployment by the constructor (counters zeroed, default
deviation 500 bps and slippage 100 bps, no intermediate token, no recorded
prices, empty balances). -/
def initialState (maxAmt minBps owner : Nat) : State where
  intermediateToken := 0
  maxPriceDeviation := 500
  maxSlippage := 100
  minProfitBps := minBps
  maxFlashLoanAmount := maxAmt
  lastExecutionTime := 0
  totalProfitGenerated := 0
  totalGasUsed := 0
  successfulTrades := 0
  failedTrades := 0
  lastKnownPrice := fun _ => 0
  balances := fun _ => 0
  paused := false
  owner := owner

/-- Source _calculateSlippage: 0 when actual has not fallen below expected,
otherwise (expected - actual) * MAX_BPS / expected. -/
def calculateSlippage (expected actual : Nat) : Except Err Nat :=
  if expected ≤ actual then .ok 0
  else do
    let d ← cmul (expected - actual) MAX_BPS
    .ok (d / expected)

/-- Source _calculateMinAmountOut: amount - amount * maxSlippage / MAX_BPS. -/
def calculateMinAmountOut (s : State) (amount : Nat) : Except Err Nat := do
  let m ← cmul amount s.maxSlippage
  csub amount (m / MAX_BPS)

/-- The router transfer effects of one swapExactTokensForTokens call as they
touch the contract's balances: the contract pays amountIn of tokenIn and
receives the venue's answer in tokenOut. -/
def swapTokens (env : Env) (s : State) (tokenIn tokenOut amountIn minOut : Nat) :
    Except Err (Nat × State) := do
  let received ← env.venue.swap tokenIn tokenOut amountIn minOut
  if amountIn ≤ s.balances tokenIn then
    let s1 : State :=
      { s with balances := fun t => if t = tokenIn then s.balances t - amountIn else s.balances t }
    let newBal ← cadd (s1.balances tokenOut) received
    .ok (received, { s1 with balances := fun t => if t = tokenOut then newBal else s1.balances t })
  else
    .error (.reverted .transferFailed)

/-- Source _executeFirstTrade: quote asset→intermediate, swap with the
slippage-derived amountOutMin, revert ExcessiveSlippage when the delivered
amount is below that minimum. -/
def executeFirstTrade (env : Env) (s : State) (asset amount : Nat) :
    Except Err (Nat × State) := do
  let quoted ← env.venue.quote asset s.intermediateToken amount
  let minAmountOut ← calculateMinAmountOut s quoted
  let (received, s1) ← swapTokens env s asset s.intermediateToken amount minAmountOut
  if received < minAmountOut then .error (.excessiveSlippage minAmountOut received)
  else .ok (received, s1)

/-- Source _executeSecondTrade: quote intermediate→asset, revert
InsufficientProfit when even the slippage-adjusted minimum cannot repay
minimumReturn, then swap; the delivered amount is returned unchecked. -/
def executeSecondTrade (env : Env) (s : State) (asset amount minimumReturn : Nat) :
    Except Err (Nat × State) := do
  let quoted ← env.venue.quote s.intermediateToken asset amount
  let minAmountOut ← calculateMinAmountOut s quoted
  if minAmountOut < minimumReturn then .error (.insufficientProfit minAmountOut minimumReturn)
  else swapTokens env s s.intermediateToken asset amount minAmountOut

/-- Source _executeArbitrage: the two trade legs, the authoritative profit
check profit * MAX_BPS < amountOwed * minProfitBps, and the unchecked
totalProfitGenerated update (which wraps mod 2^256). -/
def executeArbitrage (env : Env) (caller : Nat) (s : State) (asset amount amountOwed : Nat) :
    Except Err (Bool × State) := do
  if caller ≠ env.self then .error (.unauthorizedCaller caller env.self) else do
  let (intermediateAmount, s1) ← executeFirstTrade env s asset amount
  let (finalAmount, s2) ← executeSecondTrade env s1 asset intermediateAmount amountOwed
  let profit ← csub finalAmount amountOwed
  let lhs ← cmul profit MAX_BPS
  let rhs ← cmul amountOwed s2.minProfitBps
  if lhs < rhs then .error (.insufficientProfit profit (rhs / MAX_BPS))
  else .ok (true, { s2 with totalProfitGenerated := (s2.totalProfitGenerated + profit) % U256 })

/-- Source executeOperation: pool/initiator authorization, the try/catch
around this._executeArbitrage, and the success bookkeeping.  In the catch
branch the source increments failedTrades and emits TradeMetrics but then
executes revert(string(reason)), which undoes that increment and re-raises,
so at the call boundary only the error is observable. -/
def executeOperation (env : Env) (caller initiator : Nat) (s : State)
    (asset amount premium : Nat) : Except Err (Bool × State) := do
  if caller ≠ env.pool then .error (.unauthorizedCaller caller env.pool) else do
  if initiator ≠ env.self then .error (.unauthorizedCaller initiator env.self) else do
  let amountOwed ← cadd amount premium
  match executeArbitrage env env.self s asset amount amountOwed with
  | .error e => .error e
  | .ok (success, s1) =>
    if success then do
      let newCount ← cadd s1.successfulTrades 1
      let newGas ← cadd s1.totalGasUsed env.gasUsed
      .ok (true, { s1 with successfulTrades := newCount, totalGasUsed := newGas })
    else .ok (success, s1)

/-- Source _checkPriceDeviation: fetch the fresh asset→WETH price; when a
price was recorded before, revert PriceDeviation if _calculateSlippage of
(recorded, fresh) exceeds maxPriceDeviation; afterwards record the fresh
price. -/
def checkPriceDeviation (env : Env) (s : State) (asset : Nat) : Except Err (Nat × State) := do
  let currentPrice ← env.venue.quote asset env.weth ONE_E18
  if s.lastKnownPrice asset ≠ 0 then do
    let deviation ← calculateSlippage (s.lastKnownPrice asset) currentPrice
    if deviation > s.maxPriceDeviation then
      .error (.priceDeviation (s.lastKnownPrice asset) currentPrice)
    else
      .ok (currentPrice,
        { s with lastKnownPrice := fun a => if a = asset then currentPrice else s.lastKnownPrice a })
  else
    .ok (currentPrice,
      { s with lastKnownPrice := fun a => if a = asset then currentPrice else s.lastKnownPrice a })

/-- Source _calculateEstimatedProfit: quote the round trip and report the
excess over the input, or 0. -/
def calculateEstimatedProfit (env : Env) (s : State) (asset amount : Nat) : Except Err Nat := do
  let firstOut ← env.venue.quote asset s.intermediateToken amount
  let secondOut ← env.venue.quote s.intermediateToken asset firstOut
  .ok (if amount < secondOut then secondOut - amount else 0)

/-- Source initiateFlashLoan, one whole transaction: the whenNotPaused
modifier, parameter validation, the Too-soon minimum block spacing, the price
deviation check, the estimated-profit quote, the approval of amount * 2, and
the pool's flashLoanSimple (credit the borrow, run executeOperation with the
pool as caller, pull amount + premium back).  There is no caller-identity
check anywhere in this entry point. -/
def initiateFlashLoan (env : Env) (caller blockNumber : Nat) (s : State)
    (asset amount : Nat) : Except Err (Bool × State) := do
  if s.paused then .error (.reverted .whenPaused) else do
  if s.intermediateToken = 0 then .error (.invalidAddress s.intermediateToken .intermediateNotSet) else do
  if amount = 0 then .error (.invalidAmount amount .amountZero) else do
  if amount > s.maxFlashLoanAmount then .error (.invalidAmount amount .exceedsMaximum) else do
  let elapsed ← csub blockNumber s.lastExecutionTime
  if elapsed < MIN_EXECUTION_DELAY then .error (.reverted .tooSoon) else do
  let s1 : State := { s with lastExecutionTime := blockNumber }
  let (_currentPrice, s2) ← checkPriceDeviation env s1 asset
  let _estimatedProfit ← calculateEstimatedProfit env s2 asset amount
  let approval ← cmul amount 2
  let premium := env.premium amount
  let borrowedBal ← cadd (s2.balances asset) amount
  let sB : State := { s2 with balances := fun t => if t = asset then borrowedBal else s2.balances t }
  let (success, s3) ← executeOperation env env.pool env.self sB asset amount premium
  if success = false then .error (.reverted .flashLoanFailed) else do
  let amountOwed ← cadd amount premium
  if amountOwed ≤ approval ∧ amountOwed ≤ s3.balances asset then
    .ok (true, { s3 with balances := fun t => if t = asset then s3.balances t - amountOwed else s3.balances t })
  else .error (.reverted .transferFailed)

/-- Source setMinProfitBps (onlyOwner). -/
def setMinProfitBps (caller : Nat) (s : State) (newBps : Nat) : Except Err State :=
  if caller ≠ s.owner then .error (.reverted .notOwner)
  else if newBps = 0 ∨ newBps ≥ MAX_BPS then .error (.invalidAmount newBps .invalidBps)
  else .ok { s with minProfitBps := newBps }

/-- Source setMaxFlashLoanAmount (onlyOwner). -/
def setMaxFlashLoanAmount (caller : Nat) (s : State) (newAmount : Nat) : Except Err State :=
  if caller ≠ s.owner then .error (.reverted .notOwner)
  else if newAmount = 0 then .error (.invalidAmount newAmount .amountZero)
  else .ok { s with maxFlashLoanAmount := newAmount }

/-- Source setMaxPriceDeviation (onlyOwner). -/
def setMaxPriceDeviation (caller : Nat) (s : State) (newDeviation : Nat) : Except Err State :=
  if caller ≠ s.owner then .error (.reverted .notOwner)
  else if newDeviation = 0 ∨ newDeviation ≥ MAX_BPS then .error (.invalidAmount newDeviation .invalidDeviation)
  else .ok { s with maxPriceDeviation := newDeviation }

/-- Source setMaxSlippage (onlyOwner). -/
def setMaxSlippage (caller : Nat) (s : State) (newSlippage : Nat) : Except Err State :=
  if caller ≠ s.owner then .error (.reverted .notOwner)
  else if newSlippage = 0 ∨ newSlippage ≥ MAX_BPS then .error (.invalidAmount newSlippage .invalidSlippage)
  else .ok { s with maxSlippage := newSlippage }

/-- Source setIntermediateToken (onlyOwner). -/
def setIntermediateToken (caller : Nat) (s : State) (token : Nat) : Except Err State :=
  if caller ≠ s.owner then .error (.reverted .notOwner)
  else if token = 0 then .error (.invalidAddress token .invalidToken)
  else .ok { s with intermediateToken := token }

/-- Source emergencyWithdraw (onlyOwner): transfers the whole balance of a
token out of the contract. -/
def emergencyWithdraw (caller : Nat) (s : State) (token dest : Nat) : Except Err State :=
  if caller ≠ s.owner then .error (.reverted .notOwner)
  else if token = 0 then .error (.invalidAddress token .invalidToken)
  else if dest = 0 then .error (.invalidAddress dest .invalidToken)
  else if s.balances token = 0 then .error (.invalidAmount 0 .noTokens)
  else .ok { s with balances := fun t => if t = token then 0 else s.balances t }

/-- An incoming plain ERC20 transfer to the contract (tests mint funds to it);
this only ever increases a balance. -/
def fundToken (s : State) (token amount : Nat) : State :=
  { s with balances := fun t => if t = token then s.balances t + amount else s.balances t }

/-- EVM transaction semantics for an entry point that returns a value and a
state: when the call reverts, every state change is rolled back and the
pre-state is the on-chain state. -/
def applyTx {α : Type} (r : Except Err (α × State)) (s : State) : State :=
  match r with
  | .ok (_, s') => s'
  | .error _ => s

/-- Same, for entry points returning only a state. -/
def applyTxS (r : Except Err State) (s : State) : State :=
  match r with
  | .ok s' => s'
  | .error _ => s

/-- Whether a call completed without reverting. -/
def isOk {α : Type} : Except Err α → Bool
  | .ok _ => true
  | .error _ => false

/-- Source getTradeStatistics: (totalProfit, avgGasUsed, successRate,
totalTrades). -/
def getTradeStatistics (s : State) : Nat × Nat × Nat × Nat :=
  let totalTrades := s.successfulTrades + s.failedTrades
  (s.totalProfitGenerated,
   if totalTrades > 0 then s.totalGasUsed / totalTrades else 0,
   if totalTrades > 0 then s.successfulTrades * MAX_BPS / totalTrades else 0,
   totalTrades)

/-- On-chain states reachable from deployment through the contract's external
entry points (each applied with transaction rollback semantics) and incoming
token transfers. -/
inductive Reachable (env : Env) : State → Prop where
  | deploy (maxAmt minBps owner : Nat) : Reachable env (initialState maxAmt minBps owner)
  | initiate {s : State} (caller blockNumber asset amount : Nat) :
      Reachable env s → Reachable env (applyTx (initiateFlashLoan env caller blockNumber s asset amount) s)
  | operate {s : State} (caller initiator asset amount premium : Nat) :
      Reachable env s → Reachable env (applyTx (executeOperation env caller initiator s asset amount premium) s)
  | setMinProfit {s : State} (caller newBps : Nat) :
      Reachable env s → Reachable env (applyTxS (setMinProfitBps caller s newBps) s)
  | setMaxAmount {s : State} (caller newAmount : Nat) :
      Reachable env s → Reachable env (applyTxS (setMaxFlashLoanAmount caller s newAmount) s)
  | setDeviation {s : State} (caller newDeviation : Nat) :
      Reachable env s → Reachable env (applyTxS (setMaxPriceDeviation caller s newDeviation) s)
  | setSlippage {s : State} (caller newSlippage : Nat) :
      Reachable env s → Reachable env (applyTxS (setMaxSlippage caller s newSlippage) s)
  | setIntermediate {s : State} (caller token : Nat) :
      Reachable env s → Reachable env (applyTxS (setIntermediateToken caller s token) s)
  | withdraw {s : State} (caller token dest : Nat) :
      Reachable env s → Reachable env (applyTxS (emergencyWithdraw caller s token dest) s)
  | fund {s : State} (token amount : Nat) :
      Reachable env s → Reachable env (fundToken s token amount)

/-- Every storage field other than the token balances coincides; the trade
legs move only balances. -/
def StorageEq (s s' : State) : Prop :=
  s'.intermediateToken = s.intermediateToken ∧
  s'.maxPriceDeviation = s.maxPriceDeviation ∧
  s'.maxSlippage = s.maxSlippage ∧
  s'.minProfitBps = s.minProfitBps ∧
  s'.maxFlashLoanAmount = s.maxFlashLoanAmount ∧
  s'.lastExecutionTime = s.lastExecutionTime ∧
  s'.totalProfitGenerated = s.totalProfitGenerated ∧
  s'.totalGasUsed = s.totalGasUsed ∧
  s'.successfulTrades = s.successfulTrades ∧
  s'.failedTrades = s.failedTrades ∧
  s'.lastKnownPrice = s.lastKnownPrice ∧
  s'.paused = s.paused ∧
  s'.owner = s.owner

/-- A concrete honest venue for witnesses: token 1 trades to anything at rate
2, every other direction at rate 1, and swaps deliver exactly the quote. -/
def testVenue : Venue where
  quote := fun tokenIn _ amountIn => .ok (if tokenIn = 1 then amountIn * 2 else amountIn)
  swap := fun tokenIn _ amountIn _ => .ok (if tokenIn = 1 then amountIn * 2 else amountIn)

/-- Concrete collaborators for witnesses: the contract at 7, the pool at 8,
WETH at 3, a zero-premium pool, 21000 gas per execution. -/
def testEnv : Env where
  self := 7
  pool := 8
  weth := 3
  venue := testVenue
  premium := fun _ => 0
  gasUsed := 21000

/-- A concrete deployed-and-configured state for witnesses: asset 1 arbitraged
through intermediate token 2, 1 percent minimum profit and slippage, owner 1,
the contract holding 100 units of token 1. -/
def testState : State where
  intermediateToken := 2
  maxPriceDeviation := 500
  maxSlippage := 100
  minProfitBps := 100
  maxFlashLoanAmount := 1000
  lastExecutionTime := 0
  totalProfitGenerated := 0
  totalGasUsed := 0
  successfulTrades := 0
  failedTrades := 0
  lastKnownPrice := fun _ => 0
  balances := fun t => if t = 1 then 100 else 0
  paused := false
  owner := 1

/-- A venue realising the spec's slippage scenario: every quote answers 110,
every swap delivers only 104. -/
def slipVenue : Venue where
  quote := fun _ _ _ => .ok 110
  swap := fun _ _ _ _ => .ok 104

def slipEnv : Env := { testEnv with venue := slipVenue }

def slipState : State := { testState with maxSlippage := 500 }

/-- A venue whose fresh price (90) deviates 1000 bps below the recorded 100. -/
def devVenue : Venue where
  quote := fun _ _ _ => .ok 90
  swap := fun _ _ _ _ => .ok 90

/-- A venue whose fresh price (96) deviates only 400 bps below 100. -/
def devVenue2 : Venue where
  quote := fun _ _ _ => .ok 96
  swap := fun _ _ _ _ => .ok 96

def devEnv : Env := { testEnv with venue := devVenue }

def devEnv2 : Env := { testEnv with venue := devVenue2 }

def devState : State := { testState with lastKnownPrice := fun _ => 100 }

end FL

/-!
The orchestrator script scripts/weth-dai-arbitrage.js.  JavaScript numbers are
idealised as rationals (and as reals where Math.sqrt appears).
-/

namespace Bot

/-- RISK_MANAGEMENT.emergencyStop.maxLoss: stop after 100 dollars of loss. -/
def maxLoss : ℚ := 100

/-- RISK_MANAGEMENT.emergencyStop.maxGasSpent: stop after 1 ETH of gas. -/
def maxGasSpent : ℚ := 1

/-- RISK_MANAGEMENT.emergencyStop.cooldownPeriod: declared in the script's
configuration object but never read by any code path. -/
def cooldownPeriod : ℚ := 300

/-- The script's module-level circuit-breaker state: emergencyStopActive,
totalLoss and totalGasUsed. -/
structure BotState where
  emergencyStopActive : Bool
  totalLoss : ℚ
  totalGasUsed : ℚ
deriving DecidableEq

/-- The script's startup values: flag down, both counters 0. -/
def initialBot : BotState := ⟨false, 0, 0⟩

/-- Source checkEmergencyStop: report the stop flag, latching it to true when
the cumulative loss or cumulative gas ceiling has been exceeded. -/
def checkEmergencyStop (b : BotState) : Bool × BotState :=
  if b.emergencyStopActive then (true, b)
  else if b.totalLoss > maxLoss ∨ b.totalGasUsed > maxGasSpent then
    (true, { b with emergencyStopActive := true })
  else (false, b)

/-- The circuit-breaker fold at the end of the script's executeArbitrage:
when the bundle was not included, totalLoss grows by gasSpent * 2200 and
totalGasUsed by gasSpent converted from wei (formatEther); a successful trade
changes neither counter. -/
def recordOutcome (b : BotState) (success : Bool) (gasSpent : ℚ) : BotState :=
  if success then b
  else { b with totalLoss := b.totalLoss + gasSpent * 2200,
                totalGasUsed := b.totalGasUsed + gasSpent / 10 ^ 18 }

/-- The SizedTrade fields the admission checks read. -/
structure OpportunityInfo where
  optimalSize : ℚ
  liquidityUSD : ℚ
deriving DecidableEq

/-- The admission prefix of the script's executeArbitrage: the emergency-stop
gate, then the max-position-size check, then the min-liquidity check; the
trade is admitted only when all three pass. -/
def checkAdmission (b : BotState) (maxSize minLiquidity : ℚ) (o : OpportunityInfo) :
    Bool × BotState :=
  let stop := checkEmergencyStop b
  if stop.1 then (false, stop.2)
  else if o.optimalSize > maxSize then (false, stop.2)
  else if o.liquidityUSD < minLiquidity then (false, stop.2)
  else (true, stop.2)

end Bot

namespace Sizer

open Classical

/-- The non-nil result object of the script's calculateProfit. -/
structure SizerResult where
  profit : ℝ
  roi : ℝ
  optimalSize : ℝ
  directionSushiToUni : Bool

/-- Source calculateProfit: linear profit-per-unit model, hard 0.3 percent
slippage haircut, size capped by 3 percent of the smaller formatted reserve
and by sqrt(gasCostUSD / (profitPerUnit * (1 - maxSlippage))); the candidate
is kept only when profit exceeds 5 dollars and the ROI lies strictly between
10 and 1000 percent. -/
noncomputable def calculateProfit (uniPrice sushiPrice gasCostUSD : ℝ)
    (uniReserve0 sushiReserve0 : ℕ) (decimals : ℕ) : Option SizerResult :=
  let higherPrice := max uniPrice sushiPrice
  let lowerPrice := min uniPrice sushiPrice
  let profitPerUnit := higherPrice - lowerPrice
  let maxSlippage : ℝ := 3 / 1000
  let minReserves :=
    min ((uniReserve0 : ℝ) / 10 ^ decimals) ((sushiReserve0 : ℝ) / 10 ^ decimals)
  let maxTradeSize := minReserves * (3 / 100)
  let optimalSize :=
    min (Real.sqrt (gasCostUSD / (profitPerUnit * (1 - maxSlippage)))) maxTradeSize
  let profit := optimalSize * profitPerUnit * (1 - maxSlippage) - gasCostUSD
  let roi := profit / gasCostUSD * 100
  if profit > 5 ∧ roi > 10 ∧ roi < 1000 then
    some ⟨profit, roi, optimalSize, if uniPrice > sushiPrice then true else false⟩
  else none

/-- The script's own net-profit model as a function of the trade size x:
x * profitPerUnit * (1 - 0.003) - gasCostUSD (the formula on the line that
computes profit in calculateProfit). -/
noncomputable def profitAtSize (profitPerUnit x gasCostUSD : ℝ) : ℝ :=
  x * profitPerUnit * (1 - 3 / 1000) - gasCostUSD

end Sizer

namespace Detector

/-- checkArbitrageOpportunity's divergence:
|uniPrice - sushiPrice| / min(uniPrice, sushiPrice) * 100, a percentage. -/
def priceDiffPct (uniPrice sushiPrice : ℚ) : ℚ :=
  |uniPrice - sushiPrice| / min uniPrice sushiPrice * 100

/-- The emission gate: the script evaluates and logs an opportunity only
inside the branch guarded by priceDiff > 0.1. -/
def divergenceGate (uniPrice sushiPrice : ℚ) : Bool :=
  priceDiffPct uniPrice sushiPrice > 1 / 10

/-- checkArbitrageOpportunity's emission decision: the divergence gate
conjoined with the downstream sizing, profit and price-impact screens (the
code inside the guarded branch), abstracted as one flag. -/
def emitsOpportunity (uniPrice sushiPrice : ℚ) (downstream : Bool) : Bool :=
  divergenceGate uniPrice sushiPrice && downstream

end Detector

namespace PM

/-- One venue's cached ticker in priceMonitor.js (exchange key, bid, ask). -/
structure Ticker where
  exchange : Nat
  bid : ℚ
  ask : ℚ
deriving DecidableEq

/-- An element of the opportunities array built by
findArbitrageOpportunities. -/
structure Opportunity where
  buyExchange : Nat
  sellExchange : Nat
  buyPrice : ℚ
  sellPrice : ℚ
  profitPercent : ℚ
deriving DecidableEq

/-- The inner loop of findArbitrageOpportunities: one fixed buy venue against
every later venue; the candidate is pushed only when the buy-at-ask,
sell-at-bid profit percentage strictly exceeds the floor. -/
def oppsAgainst (buy : Ticker) (rest : List Ticker) (minProfitPercent : ℚ) :
    List Opportunity :=
  rest.filterMap fun sell =>
    let profit := (sell.bid - buy.ask) / buy.ask * 100
    if profit > minProfitPercent then
      some ⟨buy.exchange, sell.exchange, buy.ask, sell.bid, profit⟩
    else none

/-- Source PriceMonitor.findArbitrageOpportunities: the double loop over
ordered pairs i < j of the cached tickers, with the strict profit floor
(0.5 percent by default). -/
def findArbitrageOpportunities : List Ticker → ℚ → List Opportunity
  | [], _ => []
  | b :: rest, minP => oppsAgainst b rest minP ++ findArbitrageOpportunities rest minP

end PM

/-! Helper lemmas about the Except monad and the trade legs. -/

namespace FL

@[simp] theorem okBind {α β : Type} (a : α) (f : α → Except Err β) :
    (Except.ok a >>= f) = f a := rfl

@[simp] theorem errorBind {α β : Type} (e : Err) (f : α → Except Err β) :
    ((Except.error e : Except Err α) >>= f) = Except.error e := rfl

@[simp] theorem pureEqOk {α : Type} (a : α) : (pure a : Except Err α) = Except.ok a := rfl

theorem StorageEq.refl (s : State) : StorageEq s s := by
  simp [StorageEq]

theorem StorageEq.trans {s1 s2 s3 : State} (h1 : StorageEq s1 s2) (h2 : StorageEq s2 s3) :
    StorageEq s1 s3 := by
  obtain ⟨a1, b1, c1, d1, e1, f1, g1, h1', i1, j1, k1, l1, m1⟩ := h1
  obtain ⟨a2, b2, c2, d2, e2, f2, g2, h2', i2, j2, k2, l2, m2⟩ := h2
  exact ⟨a2.trans a1, b2.trans b1, c2.trans c1, d2.trans d1, e2.trans e1, f2.trans f1,
    g2.trans g1, h2'.trans h1', i2.trans i1, j2.trans j1, k2.trans k1, l2.trans l1, m2.trans m1⟩

theorem okPairInj {α β : Type} {r1 r2 : α} {s1 s2 : β}
    (h : (Except.ok (r1, s1) : Except Err (α × β)) = .ok (r2, s2)) : r1 = r2 ∧ s1 = s2 := by
  injection h with h'
  exact ⟨congrArg Prod.fst h', congrArg Prod.snd h'⟩

theorem bindEqOk {α β : Type} {x : Except Err α} {f : α → Except Err β} {v : β} :
    (x >>= f) = .ok v ↔ ∃ a, x = .ok a ∧ f a = .ok v := by
  cases x with
  | error e => simp [Bind.bind, Except.bind]
  | ok a => simp [Bind.bind, Except.bind]

theorem caddEqOk {a b c : Nat} : cadd a b = .ok c ↔ a + b < U256 ∧ c = a + b := by
  unfold cadd
  split <;> simp_all <;> omega

theorem csubEqOk {a b c : Nat} : csub a b = .ok c ↔ b ≤ a ∧ c = a - b := by
  unfold csub
  split <;> simp_all <;> omega

theorem cmulEqOk {a b c : Nat} : cmul a b = .ok c ↔ a * b < U256 ∧ c = a * b := by
  unfold cmul
  split <;> simp_all <;> omega

theorem iteEqOkElim {α : Type} {c : Prop} [Decidable c] {x y : Except Err α} {v : α}
    (h : (if c then x else y) = .ok v) : (c ∧ x = .ok v) ∨ (¬c ∧ y = .ok v) := by
  by_cases hc : c
  · rw [if_pos hc] at h; exact .inl ⟨hc, h⟩
  · rw [if_neg hc] at h; exact .inr ⟨hc, h⟩

/-- Full forward characterization of a successful swapTokens call. -/
theorem swapTokens_ok_elim {env : Env} {s : State} {tIn tOut aIn mOut r : Nat} {s' : State}
    (h : swapTokens env s tIn tOut aIn mOut = .ok (r, s')) :
    env.venue.swap tIn tOut aIn mOut = .ok r ∧ aIn ≤ s.balances tIn ∧
    s' = { s with balances := fun t =>
            if t = tOut then (if tOut = tIn then s.balances tOut - aIn else s.balances tOut) + r
            else if t = tIn then s.balances t - aIn else s.balances t } := by
  unfold swapTokens at h
  rw [bindEqOk] at h
  obtain ⟨rec, hs, h⟩ := h
  rcases iteEqOkElim h with ⟨hbal, h⟩ | ⟨-, h⟩
  · rw [bindEqOk] at h
    obtain ⟨nb, hnb, h⟩ := h
    obtain ⟨h1, h2⟩ := okPairInj h
    subst h1
    subst h2
    obtain ⟨-, hnbv⟩ := caddEqOk.mp hnb
    subst hnbv
    exact ⟨hs, hbal, by simp⟩
  · exact Except.noConfusion h

theorem swapTokens_ok_storage {env : Env} {s : State} {tIn tOut aIn mOut r : Nat} {s' : State}
    (h : swapTokens env s tIn tOut aIn mOut = .ok (r, s')) : StorageEq s s' := by
  obtain ⟨-, -, h3⟩ := swapTokens_ok_elim h
  subst h3
  unfold StorageEq
  exact ⟨rfl, rfl, rfl, rfl, rfl, rfl, rfl, rfl, rfl, rfl, rfl, rfl, rfl⟩

/-- Forward characterization of a successful first trade leg. -/
theorem executeFirstTrade_ok_elim {env : Env} {s : State} {asset amount i : Nat} {s1 : State}
    (h : executeFirstTrade env s asset amount = .ok (i, s1)) :
    ∃ quoted minOut,
      env.venue.quote asset s.intermediateToken amount = .ok quoted ∧
      calculateMinAmountOut s quoted = .ok minOut ∧
      swapTokens env s asset s.intermediateToken amount minOut = .ok (i, s1) ∧
      minOut ≤ i := by
  unfold executeFirstTrade at h
  rw [bindEqOk] at h
  obtain ⟨quoted, hq, h⟩ := h
  rw [bindEqOk] at h
  obtain ⟨minOut, hm, h⟩ := h
  rw [bindEqOk] at h
  obtain ⟨⟨rec, sr⟩, hsw, h⟩ := h
  rcases iteEqOkElim h with ⟨-, h⟩ | ⟨hge, h⟩
  · exact Except.noConfusion h
  · obtain ⟨hr, hs⟩ := okPairInj h
    subst hr; subst hs
    exact ⟨quoted, minOut, hq, hm, hsw, by omega⟩

/-- Forward characterization of a successful second trade leg. -/
theorem executeSecondTrade_ok_elim {env : Env} {s : State} {asset amount minimumReturn f : Nat}
    {s2 : State}
    (h : executeSecondTrade env s asset amount minimumReturn = .ok (f, s2)) :
    ∃ quoted minOut,
      env.venue.quote s.intermediateToken asset amount = .ok quoted ∧
      calculateMinAmountOut s quoted = .ok minOut ∧
      minimumReturn ≤ minOut ∧
      swapTokens env s s.intermediateToken asset amount minOut = .ok (f, s2) := by
  unfold executeSecondTrade at h
  rw [bindEqOk] at h
  obtain ⟨quoted, hq, h⟩ := h
  rw [bindEqOk] at h
  obtain ⟨minOut, hm, h⟩ := h
  rcases iteEqOkElim h with ⟨-, h⟩ | ⟨hge, h⟩
  · exact Except.noConfusion h
  · exact ⟨quoted, minOut, hq, hm, by omega, h⟩

/-- Forward characterization of a successful _executeArbitrage call: the two
legs succeeded, the profit check passed, and the only storage write is the
wrapped totalProfitGenerated update. -/
theorem executeArbitrage_ok_elim {env : Env} {caller : Nat} {s : State}
    {asset amount amountOwed : Nat} {b : Bool} {s' : State}
    (h : executeArbitrage env caller s asset amount amountOwed = .ok (b, s')) :
    b = true ∧ caller = env.self ∧
    ∃ i s1 f s2,
      executeFirstTrade env s asset amount = .ok (i, s1) ∧
      executeSecondTrade env s1 asset i amountOwed = .ok (f, s2) ∧
      amountOwed ≤ f ∧
      (f - amountOwed) * MAX_BPS < U256 ∧
      amountOwed * s2.minProfitBps < U256 ∧
      amountOwed * s2.minProfitBps ≤ (f - amountOwed) * MAX_BPS ∧
      s' = { s2 with totalProfitGenerated :=
               (s2.totalProfitGenerated + (f - amountOwed)) % U256 } := by
  unfold executeArbitrage at h
  rcases iteEqOkElim h with ⟨-, h⟩ | ⟨hc, h⟩
  · exact Except.noConfusion h
  · rw [bindEqOk] at h
    obtain ⟨⟨i, s1⟩, h1, h⟩ := h
    rw [bindEqOk] at h
    obtain ⟨⟨f, s2⟩, h2, h⟩ := h
    rw [bindEqOk] at h
    obtain ⟨profit, hp, h⟩ := h
    rw [bindEqOk] at h
    obtain ⟨lhs, hl, h⟩ := h
    rw [bindEqOk] at h
    obtain ⟨rhs, hr, h⟩ := h
    obtain ⟨hple, hpv⟩ := csubEqOk.mp hp
    subst hpv
    obtain ⟨hlb, hlv⟩ := cmulEqOk.mp hl
    subst hlv
    obtain ⟨hrb, hrv⟩ := cmulEqOk.mp hr
    subst hrv
    rcases iteEqOkElim h with ⟨-, h⟩ | ⟨hge, h⟩
    · exact Except.noConfusion h
    · obtain ⟨hb, hs⟩ := okPairInj h
      subst hs
      exact ⟨hb.symm, by omega, i, s1, f, s2, h1, h2, hple, hlb, hrb, by omega, rfl⟩

/-- Forward characterization of a successful executeOperation call. -/
theorem executeOperation_ok_elim {env : Env} {caller initiator : Nat} {s : State}
    {asset amount premium : Nat} {b : Bool} {s' : State}
    (h : executeOperation env caller initiator s asset amount premium = .ok (b, s')) :
    b = true ∧ caller = env.pool ∧ initiator = env.self ∧
    ∃ s1,
      amount + premium < U256 ∧
      executeArbitrage env env.self s asset amount (amount + premium) = .ok (true, s1) ∧
      s1.successfulTrades + 1 < U256 ∧ s1.totalGasUsed + env.gasUsed < U256 ∧
      s' = { s1 with successfulTrades := s1.successfulTrades + 1,
                     totalGasUsed := s1.totalGasUsed + env.gasUsed } := by
  unfold executeOperation at h
  rcases iteEqOkElim h with ⟨-, h⟩ | ⟨hc, h⟩
  · exact Except.noConfusion h
  · rcases iteEqOkElim h with ⟨-, h⟩ | ⟨hi, h⟩
    · exact Except.noConfusion h
    · rw [bindEqOk] at h
      obtain ⟨owed, ho, h⟩ := h
      obtain ⟨hob, hov⟩ := caddEqOk.mp ho
      subst hov
      cases harb : executeArbitrage env env.self s asset amount (amount + premium) with
      | error e => rw [harb] at h; exact Except.noConfusion h
      | ok p =>
        obtain ⟨succ, s1⟩ := p
        have hsucc : succ = true := (executeArbitrage_ok_elim harb).1
        subst hsucc
        rw [harb] at h
        simp only [if_true] at h
        rw [bindEqOk] at h
        obtain ⟨nc, hnc, h⟩ := h
        rw [bindEqOk] at h
        obtain ⟨ng, hng, h⟩ := h
        obtain ⟨hncb, hncv⟩ := caddEqOk.mp hnc
        obtain ⟨hngb, hngv⟩ := caddEqOk.mp hng
        subst hncv
        subst hngv
        obtain ⟨hb, hs⟩ := okPairInj h
        subst hs
        exact ⟨hb.symm, by omega, by omega, s1, hob, rfl, hncb, hngb, rfl⟩

/-- Forward characterization of a successful _checkPriceDeviation call: the
fresh price was fetched, any recorded previous price deviated by at most
maxPriceDeviation, and the recorded price becomes the fresh one. -/
theorem checkPriceDeviation_ok_elim {env : Env} {s : State} {asset c : Nat} {s' : State}
    (h : checkPriceDeviation env s asset = .ok (c, s')) :
    env.venue.quote asset env.weth ONE_E18 = .ok c ∧
    s' = { s with lastKnownPrice := fun a => if a = asset then c else s.lastKnownPrice a } ∧
    (s.lastKnownPrice asset ≠ 0 →
      ∃ dev, calculateSlippage (s.lastKnownPrice asset) c = .ok dev ∧
             dev ≤ s.maxPriceDeviation) := by
  unfold checkPriceDeviation at h
  rw [bindEqOk] at h
  obtain ⟨cur, hq, h⟩ := h
  rcases iteEqOkElim h with ⟨hne, h⟩ | ⟨hz, h⟩
  · rw [bindEqOk] at h
    obtain ⟨dev, hdev, h⟩ := h
    rcases iteEqOkElim h with ⟨-, h⟩ | ⟨hle, h⟩
    · exact Except.noConfusion h
    · obtain ⟨hc, hs⟩ := okPairInj h
      subst hc
      subst hs
      exact ⟨hq, rfl, fun _ => ⟨dev, hdev, by omega⟩⟩
  · obtain ⟨hc, hs⟩ := okPairInj h
    subst hc
    subst hs
    exact ⟨hq, rfl, fun hne => absurd hne hz⟩

/-- Forward characterization of a successful initiateFlashLoan transaction:
every guard passed, the price check and profit estimate succeeded, the pool
credited the borrow, executeOperation succeeded, and the pool pulled
amount + premium back out of the approval amount * 2. -/
theorem initiateFlashLoan_ok_elim {env : Env} {caller blockNumber : Nat} {s : State}
    {asset amount : Nat} {b : Bool} {s' : State}
    (h : initiateFlashLoan env caller blockNumber s asset amount = .ok (b, s')) :
    b = true ∧ s.paused = false ∧ s.intermediateToken ≠ 0 ∧ amount ≠ 0 ∧
    amount ≤ s.maxFlashLoanAmount ∧ s.lastExecutionTime ≤ blockNumber ∧
    MIN_EXECUTION_DELAY ≤ blockNumber - s.lastExecutionTime ∧
    ∃ cur sP est s3,
      checkPriceDeviation env { s with lastExecutionTime := blockNumber } asset = .ok (cur, sP) ∧
      calculateEstimatedProfit env sP asset amount = .ok est ∧
      amount * 2 < U256 ∧ sP.balances asset + amount < U256 ∧
      executeOperation env env.pool env.self
        { sP with balances := fun t => if t = asset then sP.balances asset + amount else sP.balances t }
        asset amount (env.premium amount) = .ok (true, s3) ∧
      amount + env.premium amount < U256 ∧
      amount + env.premium amount ≤ amount * 2 ∧
      amount + env.premium amount ≤ s3.balances asset ∧
      s' = { s3 with balances := fun t =>
              if t = asset then s3.balances t - (amount + env.premium amount)
              else s3.balances t } := by
  unfold initiateFlashLoan at h
  rcases iteEqOkElim h with ⟨-, h⟩ | ⟨hpause, h⟩
  · exact Except.noConfusion h
  rcases iteEqOkElim h with ⟨-, h⟩ | ⟨hint, h⟩
  · exact Except.noConfusion h
  rcases iteEqOkElim h with ⟨-, h⟩ | ⟨hz, h⟩
  · exact Except.noConfusion h
  rcases iteEqOkElim h with ⟨-, h⟩ | ⟨hmax, h⟩
  · exact Except.noConfusion h
  rw [bindEqOk] at h
  obtain ⟨elapsed, hel, h⟩ := h
  obtain ⟨helb, helv⟩ := csubEqOk.mp hel
  subst helv
  rcases iteEqOkElim h with ⟨-, h⟩ | ⟨hdelay, h⟩
  · exact Except.noConfusion h
  rw [bindEqOk] at h
  obtain ⟨⟨cur, sP⟩, hchk, h⟩ := h
  rw [bindEqOk] at h
  obtain ⟨est, hest, h⟩ := h
  rw [bindEqOk] at h
  obtain ⟨approval, happ, h⟩ := h
  obtain ⟨happb, happv⟩ := cmulEqOk.mp happ
  subst happv
  rw [bindEqOk] at h
  obtain ⟨borrowedBal, hbb, h⟩ := h
  obtain ⟨hbbb, hbbv⟩ := caddEqOk.mp hbb
  subst hbbv
  cases hop : executeOperation env env.pool env.self
      { sP with balances := fun t =>
          if t = asset then sP.balances asset + amount else sP.balances t }
      asset amount (env.premium amount) with
  | error e =>
    rw [bindEqOk] at h
    obtain ⟨⟨succ, s3⟩, hop', h⟩ := h
    rw [hop] at hop'
    exact Except.noConfusion hop'
  | ok p =>
    obtain ⟨succ, s3⟩ := p
    have hsucc : succ = true := (executeOperation_ok_elim hop).1
    subst hsucc
    rw [bindEqOk] at h
    obtain ⟨⟨succ', s3'⟩, hop', h⟩ := h
    rw [hop] at hop'
    obtain ⟨hsu, hs3⟩ := okPairInj hop'
    subst hsu
    subst hs3
    simp only [Bool.true_eq_false, if_false] at h
    rw [bindEqOk] at h
    obtain ⟨owed, ho, h⟩ := h
    obtain ⟨hob, hov⟩ := caddEqOk.mp ho
    subst hov
    rcases iteEqOkElim h with ⟨⟨hap, hbal⟩, h⟩ | ⟨-, h⟩
    · obtain ⟨hb, hs⟩ := okPairInj h
      subst hs
      exact ⟨hb.symm, by simpa using hpause, hint, hz, by omega, by omega, by omega,
        cur, sP, est, s3, hchk, hest, happb, hbbb, hop, hob, hap, hbal, rfl⟩
    · exact Except.noConfusion h

theorem executeFirstTrade_storage {env : Env} {s : State} {asset amount i : Nat} {s1 : State}
    (h : executeFirstTrade env s asset amount = .ok (i, s1)) : StorageEq s s1 := by
  obtain ⟨q, m, -, -, hsw, -⟩ := executeFirstTrade_ok_elim h
  exact swapTokens_ok_storage hsw

theorem executeSecondTrade_storage {env : Env} {s : State} {asset amount minimumReturn f : Nat}
    {s2 : State}
    (h : executeSecondTrade env s asset amount minimumReturn = .ok (f, s2)) : StorageEq s s2 := by
  obtain ⟨q, m, -, -, -, hsw⟩ := executeSecondTrade_ok_elim h
  exact swapTokens_ok_storage hsw

/-- C1: a successful _executeArbitrage invocation with repayment obligation
amountOwed and second-leg delivery finalAmount always satisfies
(finalAmount - amountOwed) * 10000 greater-or-equal amountOwed * minProfitBps;
and whenever both trade legs succeed but that basis-point bound fails, the
invocation reverts with InsufficientProfit. -/
theorem settlement_profit_floor (env : Env) (caller : Nat) (s : State)
    (asset amount amountOwed i f : Nat) (s1 s2 : State)
    (h1 : executeFirstTrade env s asset amount = .ok (i, s1))
    (h2 : executeSecondTrade env s1 asset i amountOwed = .ok (f, s2)) :
    (isOk (executeArbitrage env caller s asset amount amountOwed) = true →
       amountOwed ≤ f ∧ amountOwed * s.minProfitBps ≤ (f - amountOwed) * MAX_BPS) ∧
    (caller = env.self → amountOwed ≤ f →
       (f - amountOwed) * MAX_BPS < amountOwed * s.minProfitBps →
       amountOwed * s.minProfitBps < U256 →
       executeArbitrage env caller s asset amount amountOwed
         = .error (.insufficientProfit (f - amountOwed)
             (amountOwed * s.minProfitBps / MAX_BPS))) := by
  have hmp : s2.minProfitBps = s.minProfitBps := by
    have e1 := executeFirstTrade_storage h1
    have e2 := executeSecondTrade_storage h2
    exact (StorageEq.trans e1 e2).2.2.2.1
  constructor
  · intro hok
    cases hres : executeArbitrage env caller s asset amount amountOwed with
    | error e => rw [hres] at hok; exact Bool.noConfusion hok
    | ok p =>
      obtain ⟨b, s'⟩ := p
      obtain ⟨-, -, i', s1', f', s2', h1', h2', hle, -, -, hbound, -⟩ :=
        executeArbitrage_ok_elim hres
      rw [h1] at h1'
      obtain ⟨hi, hs1⟩ := okPairInj h1'.symm
      subst hi
      subst hs1
      rw [h2] at h2'
      obtain ⟨hf, hs2⟩ := okPairInj h2'.symm
      subst hf
      subst hs2
      rw [hmp] at hbound
      exact ⟨hle, hbound⟩
  · intro hcaller hle hfail hnov
    unfold executeArbitrage
    rw [if_neg (by omega)]
    rw [h1]
    simp only [bind, Except.bind]
    rw [h2]
    dsimp only
    have hsub : csub f amountOwed = .ok (f - amountOwed) := csubEqOk.mpr ⟨hle, rfl⟩
    rw [hsub]
    dsimp only
    have hlhs : cmul (f - amountOwed) MAX_BPS = .ok ((f - amountOwed) * MAX_BPS) :=
      cmulEqOk.mpr ⟨by omega, rfl⟩
    rw [hlhs]
    dsimp only
    have hrhs : cmul amountOwed s2.minProfitBps = .ok (amountOwed * s.minProfitBps) :=
      cmulEqOk.mpr ⟨by rw [hmp]; omega, by rw [hmp]⟩
    rw [hrhs]
    dsimp only
    rw [if_pos hfail]

/-- C1 witness: a concrete profitable settlement (borrow 100 of token 1,
double it to 200 of token 2, trade back to 200 of token 1, owe 100). -/
theorem settlement_profit_floor_witness :
    100 ≤ 200 ∧ 100 * testState.minProfitBps ≤ (200 - 100) * MAX_BPS :=
  (settlement_profit_floor testEnv 7 testState 1 100 100 200 200 _ _ rfl rfl).1 rfl

/-- C4: on a settlement attempt for an asset with a recorded previous price,
the price gate compares the fresh venue price against the recorded one with
_calculateSlippage; when that deviation exceeds maxPriceDeviation the attempt
reverts with PriceDeviation and the transaction leaves the recorded price (and
everything else) unchanged; within the bound the attempt proceeds, recording
the fresh price. -/
theorem price_deviation_gate (env : Env) (s : State) (asset current dev : Nat)
    (hq : env.venue.quote asset env.weth ONE_E18 = .ok current)
    (hlast : s.lastKnownPrice asset ≠ 0)
    (hdev : calculateSlippage (s.lastKnownPrice asset) current = .ok dev) :
    (dev > s.maxPriceDeviation →
       checkPriceDeviation env s asset
         = .error (.priceDeviation (s.lastKnownPrice asset) current) ∧
       applyTx (checkPriceDeviation env s asset) s = s) ∧
    (dev ≤ s.maxPriceDeviation →
       checkPriceDeviation env s asset
         = .ok (current, { s with lastKnownPrice :=
             fun a => if a = asset then current else s.lastKnownPrice a })) := by
  constructor
  · intro hgt
    have herr : checkPriceDeviation env s asset
        = .error (.priceDeviation (s.lastKnownPrice asset) current) := by
      unfold checkPriceDeviation
      rw [hq]
      simp only [bind, Except.bind]
      rw [if_pos hlast]
      rw [hdev]
      simp only [bind, Except.bind]
      rw [if_pos hgt]
    exact ⟨herr, by rw [herr]; rfl⟩
  · intro hle
    unfold checkPriceDeviation
    rw [hq]
    simp only [bind, Except.bind]
    rw [if_pos hlast]
    rw [hdev]
    simp only [bind, Except.bind]
    rw [if_neg (by omega)]

/-- C4 witness: with recorded price 100 and deviation bound 500 bps, a fresh
price of 90 (1000 bps deviation) aborts with PriceDeviation and changes
nothing, while a fresh price of 96 (400 bps) is recorded and proceeds. -/
theorem price_deviation_gate_witness :
    (checkPriceDeviation devEnv devState 1 = .error (.priceDeviation 100 90) ∧
     applyTx (checkPriceDeviation devEnv devState 1) devState = devState) ∧
    checkPriceDeviation devEnv2 devState 1
      = .ok (96, { devState with lastKnownPrice :=
          fun a => if a = 1 then 96 else devState.lastKnownPrice a }) :=
  ⟨(price_deviation_gate devEnv devState 1 90 1000 rfl (by decide) rfl).1 (by decide),
   (price_deviation_gate devEnv2 devState 1 96 400 rfl (by decide) rfl).2 (by decide)⟩

/-- C5: the first leg's required minimum output equals
quoted - quoted * maxSlippage / 10000, which is never below
quoted * (10000 - maxSlippage) / 10000 (rounding favours the contract); a
successful first leg delivers at least that minimum; and when the venue
delivers less, the whole settlement reverts with ExcessiveSlippage and the
transaction leaves every balance unchanged. -/
theorem first_leg_slippage_guard (env : Env) (s : State)
    (asset amount quoted minOut rec : Nat)
    (hq : env.venue.quote asset s.intermediateToken amount = .ok quoted)
    (hmin : calculateMinAmountOut s quoted = .ok minOut)
    (hsw : env.venue.swap asset s.intermediateToken amount minOut = .ok rec) :
    quoted * (MAX_BPS - s.maxSlippage) ≤ minOut * MAX_BPS ∧
    (∀ r s1, executeFirstTrade env s asset amount = .ok (r, s1) → minOut ≤ r) ∧
    (rec < minOut → amount ≤ s.balances asset →
       s.balances s.intermediateToken + rec < U256 → asset ≠ s.intermediateToken →
       executeFirstTrade env s asset amount = .error (.excessiveSlippage minOut rec) ∧
       applyTx (executeFirstTrade env s asset amount) s = s) := by
  have hdecomp : quoted * s.maxSlippage < U256 ∧
      quoted * s.maxSlippage / MAX_BPS ≤ quoted ∧
      minOut = quoted - quoted * s.maxSlippage / MAX_BPS := by
    unfold calculateMinAmountOut at hmin
    rw [bindEqOk] at hmin
    obtain ⟨m, hm, hsub⟩ := hmin
    obtain ⟨hmb, hmv⟩ := cmulEqOk.mp hm
    subst hmv
    obtain ⟨hsb, hsv⟩ := csubEqOk.mp hsub
    exact ⟨hmb, hsb, hsv⟩
  obtain ⟨hmb, hsb, hminval⟩ := hdecomp
  refine ⟨?_, ?_, ?_⟩
  · calc quoted * (MAX_BPS - s.maxSlippage)
        = MAX_BPS * quoted - s.maxSlippage * quoted := by
          rw [Nat.mul_comm quoted]
          rw [Nat.sub_mul]
      _ ≤ quoted * MAX_BPS - (quoted * s.maxSlippage / MAX_BPS) * MAX_BPS := by
          have hd : (quoted * s.maxSlippage / MAX_BPS) * MAX_BPS ≤ s.maxSlippage * quoted := by
            calc (quoted * s.maxSlippage / MAX_BPS) * MAX_BPS
                ≤ quoted * s.maxSlippage := Nat.div_mul_le_self _ _
              _ = s.maxSlippage * quoted := Nat.mul_comm _ _
          have he : MAX_BPS * quoted = quoted * MAX_BPS := Nat.mul_comm _ _
          omega
      _ = (quoted - quoted * s.maxSlippage / MAX_BPS) * MAX_BPS := (Nat.sub_mul _ _ _).symm
      _ = minOut * MAX_BPS := by rw [hminval]
  · intro r s1 h
    obtain ⟨q', m', hq', hm', hsw', hle⟩ := executeFirstTrade_ok_elim h
    rw [hq] at hq'
    have hqq : q' = quoted := by injection hq' with hh; exact hh.symm
    subst hqq
    rw [calculateMinAmountOut] at hm'
    have hmeq : m' = minOut := by
      rw [bindEqOk] at hm'
      obtain ⟨m2, hm2, hsub2⟩ := hm'
      obtain ⟨-, hm2v⟩ := cmulEqOk.mp hm2
      subst hm2v
      obtain ⟨-, hsv2⟩ := csubEqOk.mp hsub2
      omega
    omega
  · intro hlt hbal hnov hne
    have herr : executeFirstTrade env s asset amount
        = .error (.excessiveSlippage minOut rec) := by
      unfold executeFirstTrade
      rw [hq]
      simp only [bind, Except.bind]
      rw [hmin]
      simp only [bind, Except.bind]
      unfold swapTokens
      rw [hsw]
      simp only [bind, Except.bind]
      rw [if_pos hbal]
      rw [if_neg (Ne.symm hne)]
      have hc : cadd (s.balances s.intermediateToken) rec
          = .ok (s.balances s.intermediateToken + rec) := caddEqOk.mpr ⟨hnov, rfl⟩
      rw [hc]
      simp only [bind, Except.bind]
      rw [if_pos hlt]
    exact ⟨herr, by rw [herr]; rfl⟩

/-- C5 witness: the spec scenario itself: quoted output 110, venue delivers
104, maxSlippage 500 bps; the required minimum is 105 and the settlement
aborts with ExcessiveSlippage, leaving the pre-state intact. -/
theorem first_leg_slippage_guard_witness :
    110 * (MAX_BPS - slipState.maxSlippage) ≤ 105 * MAX_BPS ∧
    executeFirstTrade slipEnv slipState 1 100 = .error (.excessiveSlippage 105 104) ∧
    applyTx (executeFirstTrade slipEnv slipState 1 100) slipState = slipState := by
  have h := first_leg_slippage_guard slipEnv slipState 1 100 110 105 104 rfl rfl rfl
  refine ⟨h.1, ?_, ?_⟩
  · exact (h.2.2 (by decide) (by decide) (by decide) (by decide)).1
  · exact (h.2.2 (by decide) (by decide) (by decide) (by decide)).2

/-- C3 (amended): the Requested transition aborts, performing no borrow and
changing nothing, when the contract is administratively paused, and likewise
when fewer than MIN_EXECUTION_DELAY blocks have elapsed since the last
execution; initiateFlashLoan contains no caller-identity check at all. -/
theorem initiate_guards (env : Env) (caller blockNumber : Nat) (s : State)
    (asset amount : Nat) :
    (s.paused = true →
       initiateFlashLoan env caller blockNumber s asset amount
         = .error (.reverted .whenPaused) ∧
       applyTx (initiateFlashLoan env caller blockNumber s asset amount) s = s) ∧
    (s.paused = false → s.intermediateToken ≠ 0 → amount ≠ 0 →
     amount ≤ s.maxFlashLoanAmount → s.lastExecutionTime ≤ blockNumber →
     blockNumber - s.lastExecutionTime < MIN_EXECUTION_DELAY →
       initiateFlashLoan env caller blockNumber s asset amount
         = .error (.reverted .tooSoon) ∧
       applyTx (initiateFlashLoan env caller blockNumber s asset amount) s = s) := by
  constructor
  · intro hp
    have herr : initiateFlashLoan env caller blockNumber s asset amount
        = .error (.reverted .whenPaused) := by
      unfold initiateFlashLoan
      rw [if_pos hp]
    exact ⟨herr, by rw [herr]; rfl⟩
  · intro hp hint hz hmax hle hdelay
    have herr : initiateFlashLoan env caller blockNumber s asset amount
        = .error (.reverted .tooSoon) := by
      unfold initiateFlashLoan
      rw [if_neg (by rw [hp]; exact Bool.false_ne_true)]
      rw [if_neg hint]
      rw [if_neg hz]
      rw [if_neg (by omega)]
      have hc : csub blockNumber s.lastExecutionTime
          = .ok (blockNumber - s.lastExecutionTime) := csubEqOk.mpr ⟨hle, rfl⟩
      rw [hc]
      simp only [bind, Except.bind]
      rw [if_pos hdelay]
    exact ⟨herr, by rw [herr]; rfl⟩

/-- C3 witness: a paused state aborts; an un-paused state re-invoked only one
block after the previous execution aborts with the Too-soon guard. -/
theorem initiate_guards_witness :
    initiateFlashLoan testEnv 99 5 { testState with paused := true } 1 100
      = .error (.reverted .whenPaused) ∧
    initiateFlashLoan testEnv 99 5 { testState with lastExecutionTime := 4 } 1 100
      = .error (.reverted .tooSoon) :=
  ⟨((initiate_guards testEnv 99 5 { testState with paused := true } 1 100).1 rfl).1,
   ((initiate_guards testEnv 99 5 { testState with lastExecutionTime := 4 } 1 100).2
      rfl (by decide) (by decide) (by decide) (by decide) (by decide)).1⟩

/-- C3 counterexample: the claim's caller-authorization abort does not exist:
address 99 is neither the owner (1) nor any orchestrator identity, the
contract is not paused and the spacing has elapsed, and the full flash loan
still executes successfully for that caller. -/
theorem initiate_no_caller_check :
    99 ≠ testState.owner ∧
    isOk (initiateFlashLoan testEnv 99 5 testState 1 100) = true := by
  exact ⟨by decide, by rfl⟩

/-- C2: the settlement transaction is atomic: every aborting run (price
deviation, slippage, insufficient profit, authorization failure, arithmetic
panic) leaves the on-chain state exactly as it was before the request, and
every committed run performed the complete borrow → leg1 → leg2 → repay
sequence: the asset balance changes by exactly the second-leg delivery minus
the repaid amount + premium, the intermediate-token balance is restored, and
no other token's balance changes. -/
theorem settlement_atomicity (env : Env) (caller blockNumber : Nat) (s : State)
    (asset amount : Nat) :
    (∀ e, initiateFlashLoan env caller blockNumber s asset amount = .error e →
       applyTx (initiateFlashLoan env caller blockNumber s asset amount) s = s) ∧
    (∀ b s', initiateFlashLoan env caller blockNumber s asset amount = .ok (b, s') →
       asset ≠ s.intermediateToken →
       b = true ∧
       ∃ f,
         s'.balances asset + (amount + env.premium amount) = s.balances asset + f ∧
         s'.balances s.intermediateToken = s.balances s.intermediateToken ∧
         ∀ t, t ≠ asset → t ≠ s.intermediateToken → s'.balances t = s.balances t) := by
  constructor
  · intro e h
    rw [h]; rfl
  · intro b s' h hne
    obtain ⟨hb, -, -, -, -, -, -, cur, sP, est, s3, hchk, -, -, -, hop, hob, -, hbal3, hs'⟩ :=
      initiateFlashLoan_ok_elim h
    obtain ⟨-, hsPval, -⟩ := checkPriceDeviation_ok_elim hchk
    obtain ⟨-, -, -, s1, -, harb, -, -, hs3⟩ := executeOperation_ok_elim hop
    obtain ⟨-, -, i, sA, f, sB2, h1, h2, hle2, -, -, -, hs1⟩ := executeArbitrage_ok_elim harb
    obtain ⟨q1, m1, -, -, hsw1, -⟩ := executeFirstTrade_ok_elim h1
    obtain ⟨-, hbal1, hsA⟩ := swapTokens_ok_elim hsw1
    obtain ⟨q2, m2, -, -, -, hsw2⟩ := executeSecondTrade_ok_elim h2
    obtain ⟨-, hbal2, hsB2⟩ := swapTokens_ok_elim hsw2
    subst hsPval
    subst hs'
    subst hs3
    subst hs1
    subst hsA
    subst hsB2
    refine ⟨hb, f, ?_, ?_, ?_⟩
    · simp [hne, Ne.symm hne] at hbal3 ⊢
      omega
    · simp [hne, Ne.symm hne]
    · intro t ht1 ht2
      simp [ht1, ht2]

@[simp] theorem applyTx_ok {α : Type} (a : α) (s' s : State) :
    applyTx (.ok (a, s')) s = s' := rfl

@[simp] theorem applyTx_err {α : Type} (e : Err) (s : State) :
    applyTx (.error e : Except Err (α × State)) s = s := rfl

@[simp] theorem applyTxS_ok (s' s : State) : applyTxS (.ok s') s = s' := rfl

@[simp] theorem applyTxS_err (e : Err) (s : State) : applyTxS (.error e) s = s := rfl

/-- C2 witness: the slippage scenario aborts and rolls the whole transaction
back to the exact pre-state. -/
theorem settlement_atomicity_witness :
    applyTx (initiateFlashLoan slipEnv 99 5 slipState 1 100) slipState = slipState :=
  (settlement_atomicity slipEnv 99 5 slipState 1 100).1 (.excessiveSlippage 105 104) rfl

end FL

namespace Bot

/-- C6 counterexample: with the failure-count threshold 3 of the scenario,
three consecutive failed settlements (each losing a small positive gas cost)
do not trip anything: the admission check still admits the next SizedTrade,
because the script's breaker has no consecutive-failure trigger at all. -/
theorem three_failures_still_admitted :
    (checkAdmission (recordOutcome (recordOutcome (recordOutcome initialBot false (1 / 100))
        false (1 / 100)) false (1 / 100)) 50 1000000 ⟨1, 2000000⟩).1 = true := by
  norm_num [checkAdmission, recordOutcome, checkEmergencyStop, initialBot, maxLoss, maxGasSpent]

/-- C6 (amended): the script's only breaker is the cumulative emergency stop:
the gate refuses exactly when the flag is already latched or cumulative loss
exceeds 100 dollars or cumulative gas exceeds 1 ETH; once latched the flag is
never cleared by any modelled operation and every later admission is refused -
there is no cooldown-based resumption and no consecutive-failure trigger. -/
theorem emergency_stop_no_cooldown :
    (∀ b : BotState, (checkEmergencyStop b).1 = false ↔
        b.emergencyStopActive = false ∧ b.totalLoss ≤ maxLoss ∧
        b.totalGasUsed ≤ maxGasSpent) ∧
    (∀ (b : BotState) (ms ml : ℚ) (o : OpportunityInfo),
        b.emergencyStopActive = true → (checkAdmission b ms ml o).1 = false) ∧
    (∀ (b : BotState) (success : Bool) (g : ℚ), b.emergencyStopActive = true →
        (recordOutcome b success g).emergencyStopActive = true) ∧
    (∀ b : BotState, b.emergencyStopActive = true →
        ((checkEmergencyStop b).2).emergencyStopActive = true) := by
  refine ⟨?_, ?_, ?_, ?_⟩
  · intro b
    unfold checkEmergencyStop
    split_ifs with h1 h2
    · simp [h1]
    · constructor
      · intro hh; exact hh.elim
      · rintro ⟨-, hl, hg⟩
        rcases h2 with h | h
        · exact absurd h (not_lt.mpr hl)
        · exact absurd h (not_lt.mpr hg)
    · push_neg at h2
      constructor
      · intro _
        exact ⟨by simpa using h1, h2.1, h2.2⟩
      · intro _
        rfl
  · intro b ms ml o hact
    unfold checkAdmission checkEmergencyStop
    rw [if_pos hact]
    rfl
  · intro b success g hact
    unfold recordOutcome
    split_ifs <;> exact hact
  · intro b hact
    unfold checkEmergencyStop
    rw [if_pos hact]
    exact hact

/-- C6 witness: a latched breaker state refuses a well-formed SizedTrade and
stays latched through a further recorded outcome. -/
theorem emergency_stop_no_cooldown_witness :
    (checkAdmission ⟨true, 0, 0⟩ 50 1000000 ⟨1, 2000000⟩).1 = false ∧
    (recordOutcome ⟨true, 0, 0⟩ false 1).emergencyStopActive = true :=
  ⟨emergency_stop_no_cooldown.2.1 ⟨true, 0, 0⟩ 50 1000000 ⟨1, 2000000⟩ rfl,
   emergency_stop_no_cooldown.2.2.1 ⟨true, 0, 0⟩ false 1 rfl⟩

end Bot

/-- C8: the price monitor emits a candidate only when its buy-at-ask,
sell-at-bid profit percentage strictly exceeds the configured floor (so an
exactly-at-threshold divergence yields nothing); the weth-dai detector's gate
likewise requires |uniPrice - sushiPrice| / min * 100 strictly above its 0.1
floor; and the spec scenario (rates 2000 and 2005 under a 0.5 percent floor)
yields no opportunity. -/
theorem detector_threshold_exclusive :
    (∀ (ps : List PM.Ticker) (minP : ℚ) (o : PM.Opportunity),
        o ∈ PM.findArbitrageOpportunities ps minP → o.profitPercent > minP) ∧
    (∀ uniPrice sushiPrice : ℚ,
        Detector.priceDiffPct uniPrice sushiPrice = 1 / 10 →
        Detector.divergenceGate uniPrice sushiPrice = false) ∧
    (∀ (uniPrice sushiPrice : ℚ) (downstream : Bool),
        Detector.emitsOpportunity uniPrice sushiPrice downstream = true →
        Detector.priceDiffPct uniPrice sushiPrice > 1 / 10) ∧
    PM.findArbitrageOpportunities [⟨0, 2000, 2000⟩, ⟨1, 2005, 2005⟩] (1 / 2) = [] := by
  refine ⟨?_, ?_, ?_,
    by norm_num [PM.findArbitrageOpportunities, PM.oppsAgainst, List.filterMap_cons]⟩
  · intro ps
    induction ps with
    | nil => intro minP o ho; simp [PM.findArbitrageOpportunities] at ho
    | cons b rest ih =>
      intro minP o ho
      rw [PM.findArbitrageOpportunities] at ho
      rcases List.mem_append.mp ho with hmem | hmem
      · unfold PM.oppsAgainst at hmem
        obtain ⟨sell, -, hsome⟩ := List.mem_filterMap.mp hmem
        by_cases hgt : (sell.bid - b.ask) / b.ask * 100 > minP
        · rw [if_pos hgt] at hsome
          injection hsome with ho'
          rw [← ho']
          exact hgt
        · rw [if_neg hgt] at hsome
          exact Option.noConfusion hsome
      · exact ih minP o hmem
  · intro uniPrice sushiPrice hdiff
    unfold Detector.divergenceGate
    rw [hdiff]
    simp
  · intro uniPrice sushiPrice downstream hemit
    unfold Detector.emitsOpportunity Detector.divergenceGate at hemit
    have := (Bool.and_eq_true _ _).mp hemit
    exact of_decide_eq_true this.1

/-- C8 witness: a 100 percent divergence above a 1 percent floor is kept (its
profit strictly exceeds the floor), an exactly-0.1-percent divergence is
rejected by the gate, and an emitted weth-dai opportunity had a gate-passing
divergence. -/
theorem detector_threshold_exclusive_witness :
    (⟨0, 1, 1, 2, 100⟩ : PM.Opportunity).profitPercent > (1 : ℚ) ∧
    Detector.divergenceGate 1000 1001 = false ∧
    Detector.priceDiffPct 1 2 > 1 / 10 :=
  ⟨detector_threshold_exclusive.1 [⟨0, 1, 1⟩, ⟨1, 2, 2⟩] 1 ⟨0, 1, 1, 2, 100⟩
     (by norm_num [PM.findArbitrageOpportunities, PM.oppsAgainst, List.filterMap_cons]),
   detector_threshold_exclusive.2.1 1000 1001 (by norm_num [Detector.priceDiffPct]),
   detector_threshold_exclusive.2.2.1 1 2 true
     (by norm_num [Detector.emitsOpportunity, Detector.divergenceGate, Detector.priceDiffPct])⟩

namespace FL

/-- A successful _executeArbitrage run changes no counter except the wrapped
totalProfitGenerated update. -/
theorem executeArbitrage_ok_fields {env : Env} {caller : Nat} {s : State}
    {asset amount amountOwed : Nat} {b : Bool} {s' : State}
    (h : executeArbitrage env caller s asset amount amountOwed = .ok (b, s')) :
    s'.totalGasUsed = s.totalGasUsed ∧ s'.failedTrades = s.failedTrades ∧
    s'.successfulTrades = s.successfulTrades ∧
    ∃ p, s'.totalProfitGenerated = (s.totalProfitGenerated + p) % U256 := by
  obtain ⟨-, -, i, s1, f, s2, h1, h2, -, -, -, -, hs'⟩ := executeArbitrage_ok_elim h
  have e := StorageEq.trans (executeFirstTrade_storage h1) (executeSecondTrade_storage h2)
  subst hs'
  refine ⟨e.2.2.2.2.2.2.2.1, e.2.2.2.2.2.2.2.2.2.1, e.2.2.2.2.2.2.2.2.1,
    f - amountOwed, ?_⟩
  rw [e.2.2.2.2.2.2.1]

/-- A successful executeOperation run adds the measured gas to totalGasUsed,
increments successfulTrades, leaves failedTrades unchanged and performs one
wrapped totalProfitGenerated update. -/
theorem executeOperation_ok_fields {env : Env} {caller initiator : Nat} {s : State}
    {asset amount premium : Nat} {b : Bool} {s' : State}
    (h : executeOperation env caller initiator s asset amount premium = .ok (b, s')) :
    s'.totalGasUsed = s.totalGasUsed + env.gasUsed ∧
    s'.failedTrades = s.failedTrades ∧
    s'.successfulTrades = s.successfulTrades + 1 ∧
    ∃ p, s'.totalProfitGenerated = (s.totalProfitGenerated + p) % U256 := by
  obtain ⟨-, -, -, s1, -, harb, -, -, hs'⟩ := executeOperation_ok_elim h
  obtain ⟨hg, hf, hsu, p, hp⟩ := executeArbitrage_ok_fields harb
  subst hs'
  exact ⟨by rw [hg], hf, by rw [hsu], p, hp⟩

/-- A successful initiateFlashLoan transaction adds the measured gas to
totalGasUsed, increments successfulTrades and leaves failedTrades alone. -/
theorem initiateFlashLoan_ok_fields {env : Env} {caller blockNumber : Nat} {s : State}
    {asset amount : Nat} {b : Bool} {s' : State}
    (h : initiateFlashLoan env caller blockNumber s asset amount = .ok (b, s')) :
    s'.totalGasUsed = s.totalGasUsed + env.gasUsed ∧
    s'.failedTrades = s.failedTrades ∧
    s'.successfulTrades = s.successfulTrades + 1 := by
  obtain ⟨-, -, -, -, -, -, -, cur, sP, est, s3, hchk, -, -, -, hop, -, -, -, hs'⟩ :=
    initiateFlashLoan_ok_elim h
  obtain ⟨-, hsPval, -⟩ := checkPriceDeviation_ok_elim hchk
  obtain ⟨hg, hf, hsu, -, -⟩ := executeOperation_ok_fields hop
  subst hsPval
  subst hs'
  exact ⟨hg, hf, hsu⟩

/-- C9 (amended): the orchestrator's totalLoss and totalGasUsed only grow (and
no reset exists); the contract's totalGasUsed only grows on every transaction
outcome; the contract's totalProfitGenerated is updated inside an unchecked
block and therefore wraps modulo 2^256 - it is non-decreasing exactly as long
as the running sum stays below 2^256. -/
theorem breaker_counters_monotone :
    (∀ (b : Bot.BotState) (success : Bool) (g : ℚ), 0 ≤ g →
        b.totalLoss ≤ (Bot.recordOutcome b success g).totalLoss ∧
        b.totalGasUsed ≤ (Bot.recordOutcome b success g).totalGasUsed) ∧
    (∀ b : Bot.BotState, (Bot.checkEmergencyStop b).2.totalLoss = b.totalLoss ∧
        (Bot.checkEmergencyStop b).2.totalGasUsed = b.totalGasUsed) ∧
    (∀ (env : Env) (caller initiator : Nat) (s : State) (asset amount premium : Nat),
        s.totalGasUsed ≤
          (applyTx (executeOperation env caller initiator s asset amount premium) s).totalGasUsed) ∧
    (∀ (env : Env) (caller blockNumber : Nat) (s : State) (asset amount : Nat),
        s.totalGasUsed ≤
          (applyTx (initiateFlashLoan env caller blockNumber s asset amount) s).totalGasUsed) ∧
    (∀ (env : Env) (caller : Nat) (s : State) (asset amount amountOwed : Nat) (b : Bool)
        (s' : State), executeArbitrage env caller s asset amount amountOwed = .ok (b, s') →
        ∃ p, s'.totalProfitGenerated = (s.totalProfitGenerated + p) % U256 ∧
          (s.totalProfitGenerated + p < U256 →
            s.totalProfitGenerated ≤ s'.totalProfitGenerated)) := by
  refine ⟨?_, ?_, ?_, ?_, ?_⟩
  · intro b success g hg
    unfold Bot.recordOutcome
    split_ifs
    · exact ⟨le_refl _, le_refl _⟩
    · constructor
      · have : (0 : ℚ) ≤ g * 2200 := by positivity
        simp only
        linarith
      · have : (0 : ℚ) ≤ g / 10 ^ 18 := by positivity
        simp only
        linarith
  · intro b
    unfold Bot.checkEmergencyStop
    split_ifs <;> exact ⟨rfl, rfl⟩
  · intro env caller initiator s asset amount premium
    cases hres : executeOperation env caller initiator s asset amount premium with
    | error e => exact le_refl _
    | ok p =>
      obtain ⟨b, s'⟩ := p
      have := (executeOperation_ok_fields hres).1
      simp only [applyTx_ok]
      omega
  · intro env caller blockNumber s asset amount
    cases hres : initiateFlashLoan env caller blockNumber s asset amount with
    | error e => exact le_refl _
    | ok p =>
      obtain ⟨b, s'⟩ := p
      have := (initiateFlashLoan_ok_fields hres).1
      simp only [applyTx_ok]
      omega
  · intro env caller s asset amount amountOwed b s' h
    obtain ⟨-, -, -, p, hp⟩ := executeArbitrage_ok_fields h
    exact ⟨p, hp, fun hlt => by rw [hp, Nat.mod_eq_of_lt hlt]; omega⟩

/-- C9 witness: a failed orchestrator outcome with positive gas grows both
counters, and a concrete in-range contract settlement grows
totalProfitGenerated. -/
theorem breaker_counters_monotone_witness :
    ((Bot.initialBot.totalLoss ≤ (Bot.recordOutcome Bot.initialBot false 1).totalLoss ∧
      Bot.initialBot.totalGasUsed ≤ (Bot.recordOutcome Bot.initialBot false 1).totalGasUsed)) ∧
    (∃ p, (applyTx (executeArbitrage testEnv 7 testState 1 100 100) testState).totalProfitGenerated
        = (testState.totalProfitGenerated + p) % U256) := by
  constructor
  · exact breaker_counters_monotone.1 Bot.initialBot false 1 (by norm_num)
  · obtain ⟨p, hp, -⟩ := breaker_counters_monotone.2.2.2.2 testEnv 7 testState 1 100 100 true _ rfl
    exact ⟨p, hp⟩

/-- C9 counterexample: the unchecked totalProfitGenerated update wraps: from a
state whose cumulative profit counter is 2^256 - 1, the same successful
settlement leaves the counter at 99, a decrease, on a committed (non-reverted)
execution path with no operator reset involved. -/
theorem total_profit_wrap_decreases :
    isOk (executeArbitrage testEnv 7
      { testState with totalProfitGenerated := U256 - 1 } 1 100 100) = true ∧
    (applyTx (executeArbitrage testEnv 7
        { testState with totalProfitGenerated := U256 - 1 } 1 100 100)
      { testState with totalProfitGenerated := U256 - 1 }).totalProfitGenerated
      < { testState with totalProfitGenerated := U256 - 1 }.totalProfitGenerated := by
  exact ⟨rfl, by decide⟩

end FL

namespace FL

theorem setMinProfitBps_failedTrades (caller newv : Nat) (s : State) :
    (applyTxS (setMinProfitBps caller s newv) s).failedTrades = s.failedTrades := by
  unfold setMinProfitBps
  split_ifs <;> rfl

theorem setMaxFlashLoanAmount_failedTrades (caller newv : Nat) (s : State) :
    (applyTxS (setMaxFlashLoanAmount caller s newv) s).failedTrades = s.failedTrades := by
  unfold setMaxFlashLoanAmount
  split_ifs <;> rfl

theorem setMaxPriceDeviation_failedTrades (caller newv : Nat) (s : State) :
    (applyTxS (setMaxPriceDeviation caller s newv) s).failedTrades = s.failedTrades := by
  unfold setMaxPriceDeviation
  split_ifs <;> rfl

theorem setMaxSlippage_failedTrades (caller newv : Nat) (s : State) :
    (applyTxS (setMaxSlippage caller s newv) s).failedTrades = s.failedTrades := by
  unfold setMaxSlippage
  split_ifs <;> rfl

theorem setIntermediateToken_failedTrades (caller token : Nat) (s : State) :
    (applyTxS (setIntermediateToken caller s token) s).failedTrades = s.failedTrades := by
  unfold setIntermediateToken
  split_ifs <;> rfl

theorem emergencyWithdraw_failedTrades (caller token dest : Nat) (s : State) :
    (applyTxS (emergencyWithdraw caller s token dest) s).failedTrades = s.failedTrades := by
  unfold emergencyWithdraw
  split_ifs <;> rfl

/-- C10: in every reachable on-chain state failedTrades is 0 - the only
increment sits in a catch branch that re-reverts, so it is always rolled
back - and consequently getTradeStatistics reports a success rate of exactly
MAX_BPS (100 percent) whenever any trade has been recorded. -/
theorem failed_trades_invariant (env : Env) (s : State) (h : Reachable env s) :
    s.failedTrades = 0 ∧
    (0 < s.successfulTrades + s.failedTrades →
      (getTradeStatistics s).2.2.1 = MAX_BPS) := by
  have hf : s.failedTrades = 0 := by
    induction h with
    | deploy maxAmt minBps owner => rfl
    | initiate caller blockNumber asset amount hr ih =>
      rename_i st
      cases hres : initiateFlashLoan env caller blockNumber st asset amount with
      | error e => simpa using ih
      | ok p =>
        obtain ⟨b, s'⟩ := p
        simp only [applyTx_ok]
        rw [(initiateFlashLoan_ok_fields hres).2.1]
        exact ih
    | operate caller initiator asset amount premium hr ih =>
      rename_i st
      cases hres : executeOperation env caller initiator st asset amount premium with
      | error e => simpa using ih
      | ok p =>
        obtain ⟨b, s'⟩ := p
        simp only [applyTx_ok]
        rw [(executeOperation_ok_fields hres).2.1]
        exact ih
    | setMinProfit caller newBps hr ih =>
      rename_i st
      rw [setMinProfitBps_failedTrades]
      exact ih
    | setMaxAmount caller newAmount hr ih =>
      rw [setMaxFlashLoanAmount_failedTrades]
      exact ih
    | setDeviation caller newDeviation hr ih =>
      rw [setMaxPriceDeviation_failedTrades]
      exact ih
    | setSlippage caller newSlippage hr ih =>
      rw [setMaxSlippage_failedTrades]
      exact ih
    | setIntermediate caller token hr ih =>
      rw [setIntermediateToken_failedTrades]
      exact ih
    | withdraw caller token dest hr ih =>
      rw [emergencyWithdraw_failedTrades]
      exact ih
    | fund token amount hr ih =>
      exact ih
  refine ⟨hf, fun hpos => ?_⟩
  unfold getTradeStatistics
  rw [hf] at hpos ⊢
  simp only [Nat.add_zero] at hpos ⊢
  rw [if_pos hpos]
  exact Nat.mul_div_cancel_left MAX_BPS hpos

/-- C10 witness: after one successful settlement from a reachable
configuration, failedTrades is 0 and the reported success rate is 10000. -/
theorem failed_trades_invariant_witness :
    (applyTx (initiateFlashLoan testEnv 99 5 testState 1 100) testState).failedTrades = 0 ∧
    (getTradeStatistics
      (applyTx (initiateFlashLoan testEnv 99 5 testState 1 100) testState)).2.2.1 = MAX_BPS := by
  have hreach : Reachable testEnv testState :=
    Reachable.fund 1 100 (Reachable.setIntermediate 1 2 (Reachable.deploy 1000 100 1))
  have h := failed_trades_invariant testEnv _ (Reachable.initiate 99 5 1 100 hreach)
  exact ⟨h.1, h.2 (by decide)⟩

end FL

namespace Sizer

/-- Evaluation of the sizer at prices 1 and 1 + 25000/997 (profit-per-unit
25000/997, so profitPerUnit * (1 - 0.003) = 25), gas cost 4 dollars and equal
reserves n with decimals 0: the sqrt heuristic picks sqrt(4/25) = 2/5, far
below the cap 0.03 * n, and reports profit 6 and ROI 150. -/
theorem calculateProfit_eval (n : ℕ) (hn : 14 ≤ n) :
    calculateProfit 1 (1 + 25000 / 997) 4 n n 0 = some ⟨6, 150, 2 / 5, false⟩ := by
  unfold calculateProfit
  have hppu : max (1 : ℝ) (1 + 25000 / 997) - min (1 : ℝ) (1 + 25000 / 997)
      = 25000 / 997 := by
    rw [max_eq_right (by norm_num), min_eq_left (by norm_num)]
    ring
  simp only [hppu]
  have hsq : Real.sqrt (4 / (25000 / 997 * (1 - 3 / 1000))) = 2 / 5 := by
    have harg : (4 : ℝ) / (25000 / 997 * (1 - 3 / 1000)) = (2 / 5) ^ 2 := by norm_num
    rw [harg, Real.sqrt_sq (by norm_num)]
  rw [hsq]
  have hcap : min ((n : ℝ) / 10 ^ 0) ((n : ℝ) / 10 ^ 0) * (3 / 100) = (n : ℝ) * 3 / 100 := by
    rw [min_self]
    norm_num
    ring
  rw [hcap]
  have hnR : (14 : ℝ) ≤ (n : ℝ) := by exact_mod_cast hn
  have hmin : min (2 / 5 : ℝ) ((n : ℝ) * 3 / 100) = 2 / 5 := by
    rw [min_eq_left]
    linarith
  rw [hmin]
  have hprof : (2 / 5 : ℝ) * (25000 / 997) * (1 - 3 / 1000) - 4 = 6 := by norm_num
  rw [hprof]
  have hroi : (6 : ℝ) / 4 * 100 = 150 := by norm_num
  rw [hroi]
  rw [if_pos (by norm_num)]
  rw [if_neg (by norm_num)]

/-- C7 counterexample: at a concrete opportunity (prices 1 and 1 + 25000/997,
gas cost 4, reserves 10000 each, decimals 0) the Sizer returns optimalSize
2/5 with net profit 6, while size maxTradeSize = 300 - inside the capped
range [0, maxTradeSize] - yields net profit 7496 under the code's own profit
model: the shortfall 7490 exceeds one thousand times the achieved profit, so
the chosen size is not within any meaningful tolerance of the maximum. -/
theorem sizer_misses_optimum :
    calculateProfit 1 (1 + 25000 / 997) 4 10000 10000 0 = some ⟨6, 150, 2 / 5, false⟩ ∧
    profitAtSize (25000 / 997) ((10000 : ℝ) * 3 / 100) 4 = 7496 ∧
    profitAtSize (25000 / 997) (2 / 5) 4 = 6 ∧
    ((7496 : ℝ) - 6 > 1000 * 6) := by
  refine ⟨calculateProfit_eval 10000 (by norm_num), ?_, ?_, by norm_num⟩
  · unfold profitAtSize
    norm_num
  · unfold profitAtSize
    norm_num

/-- C7 (amended): under the code's own profit model profit(x) =
x * profitPerUnit * (1 - 0.003) - gasCost, profit is non-decreasing in x for
any non-negative profit-per-unit, so the true maximum over the capped range
[0, maxTradeSize] sits at maxTradeSize; and for every tolerance T there are
opportunities (reserves n large enough, so maxTradeSize = 0.03 * n) on which
the sqrt heuristic's choice falls short of that maximum by more than T: no
fixed tolerance bounds the sizer's optimality gap. -/
theorem sizer_heuristic_not_optimal :
    (∀ (ppu gas x y : ℝ), 0 ≤ ppu → x ≤ y →
        profitAtSize ppu x gas ≤ profitAtSize ppu y gas) ∧
    (∀ (T : ℝ) (n : ℕ), 14 ≤ n → (T + 10) * 4 / 3 + 14 ≤ (n : ℝ) →
        calculateProfit 1 (1 + 25000 / 997) 4 n n 0 = some ⟨6, 150, 2 / 5, false⟩ ∧
        profitAtSize (25000 / 997) ((n : ℝ) * 3 / 100) 4
          - profitAtSize (25000 / 997) (2 / 5) 4 > T) := by
  constructor
  · intro ppu gas x y hppu hxy
    unfold profitAtSize
    have h1 : x * ppu ≤ y * ppu := mul_le_mul_of_nonneg_right hxy hppu
    have h2 : x * ppu * (1 - 3 / 1000) ≤ y * ppu * (1 - 3 / 1000) :=
      mul_le_mul_of_nonneg_right h1 (by norm_num)
    linarith
  · intro T n hn hbound
    refine ⟨calculateProfit_eval n hn, ?_⟩
    unfold profitAtSize
    have h25 : (25000 / 997 : ℝ) * (1 - 3 / 1000) = 25 := by norm_num
    nlinarith [hbound]

/-- C7 witness: monotonicity of the code's model at a concrete point, and the
concrete instance n = 28 beating tolerance T = 0. -/
theorem sizer_heuristic_not_optimal_witness :
    profitAtSize 1 2 0 ≤ profitAtSize 1 3 0 ∧
    (calculateProfit 1 (1 + 25000 / 997) 4 28 28 0 = some ⟨6, 150, 2 / 5, false⟩ ∧
     profitAtSize (25000 / 997) ((28 : ℝ) * 3 / 100) 4
       - profitAtSize (25000 / 997) (2 / 5) 4 > 0) :=
  ⟨sizer_heuristic_not_optimal.1 1 0 2 3 (by norm_num) (by norm_num),
   sizer_heuristic_not_optimal.2 0 28 (by norm_num) (by norm_num)⟩

end Sizer
